import Mathlib

/-!
Verification of the serial-transport core of the iot-foundry linux endpoint
(`src/src/main.c`, `src/src/platform.c`, `src/include/config.h`).

The embedding is shallow: each C function relevant to the claims is
translated into a total Lean function.  Side effects on the operating
system (posix_openpt, grantpt, unlockpt, ptsname, open, tcgetattr,
tcsetattr, select) are modelled by an explicit environment record that
supplies each call's result; `printf` diagnostics are modelled by boolean
"warning printed" outputs where a claim mentions them.
-/

namespace IotFoundry

/-! ### Constants

Numeric values of the Linux `<termios.h>` baud-rate constants used in
`baudRateFromString` (main.c lines 74-90), the closed-descriptor sentinel,
and EXIT_FAILURE.  `SERIAL_PATH_MAX` is the fallback 1024 from config.h. -/

def B4800 : Int := 12
def B9600 : Int := 13
def B19200 : Int := 14
def B38400 : Int := 15
def B57600 : Int := 4097
def B115200 : Int := 4098
def B230400 : Int := 4099
def SERIAL_PATH_MAX : Nat := 1024
def EXIT_FAILURE : Int := 1

/-- The raw integer tokens of the enumerated rate set named by the spec
(section 3): 4800 .. 230400. -/
def enumeratedRates : List Int := [4800, 9600, 19200, 38400, 57600, 115200, 230400]

/-- Structure `config_t` from config.h: baud (int), hwflow (int), path (char array,
modelled as the null-terminated content), fd (int, -1 when closed). -/
structure config_t where
  baud : Int
  hwflow : Int
  path : String
  fd : Int
deriving DecidableEq

/-- The initializer of the global `serial_device` (main.c lines 50-55):
baud 115200 (the raw integer literal, not a Bxxxx constant), hwflow 0,
empty path, fd -1. -/
def serial_device : config_t := ⟨115200, 0, "", -1⟩

/-- Model of `strncpy(dst, src, SERIAL_PATH_MAX - 1)` followed by forced null
termination, as used for `serial_device.path` (main.c line 182,
platform.c line 86): keeps at most SERIAL_PATH_MAX - 1 characters. -/
def strncpyPath (s : String) : String :=
  String.mk (s.data.take (SERIAL_PATH_MAX - 1))

/-! ### main.c helpers -/

/-- C `tolower` on one character in the C locale: only ASCII uppercase
letters change. -/
def c_tolower (c : Char) : Char :=
  if 'A' ≤ c ∧ c ≤ 'Z' then Char.ofNat (c.toNat + 32) else c

/-- Function `toLower` (main.c lines 122-127): in-place lowercase conversion,
modelled as returning the converted string. -/
def toLower (s : String) : String :=
  String.mk (s.data.map c_tolower)

/-- Function `parseBool` (main.c lines 137-144).  The C argument may be NULL,
modelled by `Option`.  Result: the int value and whether the
"Unrecognized boolean value" warning was printed. -/
def parseBool (os : Option String) : Int × Bool :=
  match os with
  | none => (0, false)
  | some s0 =>
    let s := toLower s0
    if s = "true" ∨ s = "1" ∨ s = "yes" then (1, false)
    else if s = "false" ∨ s = "0" ∨ s = "no" then (0, false)
    else (0, true)

/-- The `baudMap` table of `baudRateFromString` (main.c lines 78-82). -/
def baudMap : List (String × Int) :=
  [("4800", B4800), ("9600", B9600), ("19200", B19200), ("38400", B38400),
   ("57600", B57600), ("115200", B115200), ("230400", B230400)]

/-- The seven recognized baud tokens. -/
def recognizedBaudTokens : List String :=
  ["4800", "9600", "19200", "38400", "57600", "115200", "230400"]

/-- Function `baudRateFromString` (main.c lines 74-90): NULL yields the default
silently; otherwise an exact string match against `baudMap`; an unmatched
token yields the default with a warning printed (second component). -/
def baudRateFromString (os : Option String) : Int × Bool :=
  match os with
  | none => (B115200, false)
  | some str =>
    match baudMap.find? (fun e => e.1 = str) with
    | some e => (e.2, false)
    | none => (B115200, true)

/-! ### Argument parsing (`parseArgs`, main.c lines 162-223)

`parseArgs` drives GNU `getopt_long` with option string "t:b:f:h" and
long options tty/baud/hwflow (`optional_argument`) and help
(`no_argument`).  The scanning behaviour relevant here is modelled
token by token:

* `--` terminates option scanning; the remaining tokens are operands.
* `--name` and `--name=value` select a long option by exact name
  (unambiguous-abbreviation matching is not modelled; an abbreviated
  long option is treated as unrecognized, which produces the same
  usage-and-fail outcome as any unrecognized option).
* a token `-c...` selects short option `c`; the remainder of the token,
  when nonempty, is its argument; short t/b/f take a required argument,
  consuming the next token (whatever it is) when the remainder is empty,
  and getopt reports an error when no token is left.
* `-` alone and tokens not starting with `-` are operands (GNU getopt
  permutes them past the options).
* an unrecognized option makes getopt return a code that falls into the
  `default:` case, which (as for `--help` / `-h`) prints the usage text
  and makes `parseArgs` return 0.

A long tty/baud/hwflow option with no `=value` has NULL `optarg`; the
hand-written peek in each case then consumes the following token as the
value only when that token's first character is not `-`
(`argv[optind][0] != '-'`). -/

/-- First character of a token equals `-` (the C test `argv[i][0] != '-'`
negated; the empty string has first byte NUL, so it does not count). -/
def headIsDash (s : String) : Bool :=
  match s.data with
  | [] => false
  | c :: _ => c = '-'

/-- Split the characters of a long-option body at the first `=`:
name characters, and the argument characters when an `=` is present. -/
def splitAtEq : List Char → List Char × Option (List Char)
  | [] => ([], none)
  | c :: rest =>
    if c = '=' then ([], some rest)
    else
      let r := splitAtEq rest
      (c :: r.1, r.2)

/-- How getopt_long classifies one argv token. -/
inductive ArgClass where
  | terminator
  | operand
  | optLong (name : String) (arg : Option String)
  | optShort (c : Char) (arg : Option String)
deriving DecidableEq

/-- Classify one argv token as getopt_long sees it. -/
def classifyArg (s : String) : ArgClass :=
  match s.data with
  | '-' :: '-' :: [] => ArgClass.terminator
  | '-' :: '-' :: rest =>
    let p := splitAtEq rest
    ArgClass.optLong (String.mk p.1) (p.2.map String.mk)
  | '-' :: c :: rest =>
    ArgClass.optShort c (if rest.isEmpty then none else some (String.mk rest))
  | _ => ArgClass.operand

/-- Case 't' body (main.c lines 175-188): a present value is strncpy-ed
into `path`; an absent value clears `path`. -/
def applyTty (cfg : config_t) (val : Option String) : config_t :=
  match val with
  | some v => { cfg with path := strncpyPath v }
  | none => { cfg with path := "" }

/-- Case 'b' body (main.c lines 189-201): a present value is mapped by
`baudRateFromString` into `baud`; an absent value changes nothing. -/
def applyBaud (cfg : config_t) (val : Option String) : config_t :=
  match val with
  | some v => { cfg with baud := (baudRateFromString (some v)).1 }
  | none => cfg

/-- Case 'f' body (main.c lines 202-214): a present value is mapped by
`parseBool` into `hwflow`; an absent value changes nothing. -/
def applyHwflow (cfg : config_t) (val : Option String) : config_t :=
  match val with
  | some v => { cfg with hwflow := (parseBool (some v)).1 }
  | none => cfg

/-- The option-scanning loop of `parseArgs` (main.c lines 173-222) over
the argv tail.  The leading Bool models getopt's `optind` advancement:
`true` means the head token was already consumed as the argument of the
previous option (`argv[optind++]`) and is skipped.  When a long
tty/baud/hwflow option carries no `=value`, the following token (when
present with first character not `-`, per the peek) or, for the short
forms, the following token unconditionally, is consumed as the value.
Result: the C return value as a Bool (`true` = 1 = success, `false` =
0 = failure, and every `false` return is immediately preceded by
`printUsage`) together with the mutated configuration. -/
def parseArgsLoop : Bool → config_t → List String → Bool × config_t
  | _, cfg, [] => (true, cfg)
  | true, cfg, _ :: rest => parseArgsLoop false cfg rest
  | false, cfg, a :: rest =>
    match classifyArg a with
    | ArgClass.terminator => (true, cfg)
    | ArgClass.operand => parseArgsLoop false cfg rest
    | ArgClass.optLong "help" _ => (false, cfg)
    | ArgClass.optLong "tty" arg =>
      (match arg with
       | some v => parseArgsLoop false (applyTty cfg (some v)) rest
       | none =>
         match rest.head? with
         | none => parseArgsLoop false (applyTty cfg none) rest
         | some v =>
           if headIsDash v then parseArgsLoop false (applyTty cfg none) rest
           else parseArgsLoop true (applyTty cfg (some v)) rest)
    | ArgClass.optLong "baud" arg =>
      (match arg with
       | some v => parseArgsLoop false (applyBaud cfg (some v)) rest
       | none =>
         match rest.head? with
         | none => parseArgsLoop false cfg rest
         | some v =>
           if headIsDash v then parseArgsLoop false cfg rest
           else parseArgsLoop true (applyBaud cfg (some v)) rest)
    | ArgClass.optLong "hwflow" arg =>
      (match arg with
       | some v => parseArgsLoop false (applyHwflow cfg (some v)) rest
       | none =>
         match rest.head? with
         | none => parseArgsLoop false cfg rest
         | some v =>
           if headIsDash v then parseArgsLoop false cfg rest
           else parseArgsLoop true (applyHwflow cfg (some v)) rest)
    | ArgClass.optLong _ _ => (false, cfg)
    | ArgClass.optShort 'h' _ => (false, cfg)
    | ArgClass.optShort 't' arg =>
      (match arg with
       | some v => parseArgsLoop false (applyTty cfg (some v)) rest
       | none =>
         match rest.head? with
         | none => (false, cfg)
         | some v => parseArgsLoop true (applyTty cfg (some v)) rest)
    | ArgClass.optShort 'b' arg =>
      (match arg with
       | some v => parseArgsLoop false (applyBaud cfg (some v)) rest
       | none =>
         match rest.head? with
         | none => (false, cfg)
         | some v => parseArgsLoop true (applyBaud cfg (some v)) rest)
    | ArgClass.optShort 'f' arg =>
      (match arg with
       | some v => parseArgsLoop false (applyHwflow cfg (some v)) rest
       | none =>
         match rest.head? with
         | none => (false, cfg)
         | some v => parseArgsLoop true (applyHwflow cfg (some v)) rest)
    | ArgClass.optShort _ _ => (false, cfg)

/-- Function `parseArgs` (main.c lines 162-223) on the argv tail (argv[0] is the
program name, not scanned). -/
def parseArgs (cfg : config_t) (args : List String) : Bool × config_t :=
  parseArgsLoop false cfg args

/-- Specification-side predicate: the scan encounters an explicit help
request, an unrecognized option, or a short option missing its required
argument ("unrecognized option, missing required syntax, or explicit
help request" in the spec's words).  Defined over the same token walk as
the scanner - including the consumed-token skip flag - so that
"containing" accounts for tokens consumed as option arguments and for
the `--` terminator; it does not depend on any configuration state. -/
def hasFatalOption : Bool → List String → Bool
  | _, [] => false
  | true, _ :: rest => hasFatalOption false rest
  | false, a :: rest =>
    match classifyArg a with
    | ArgClass.terminator => false
    | ArgClass.operand => hasFatalOption false rest
    | ArgClass.optLong "help" _ => true
    | ArgClass.optLong "tty" arg =>
      (match arg with
       | some _ => hasFatalOption false rest
       | none =>
         match rest.head? with
         | none => hasFatalOption false rest
         | some v =>
           if headIsDash v then hasFatalOption false rest
           else hasFatalOption true rest)
    | ArgClass.optLong "baud" arg =>
      (match arg with
       | some _ => hasFatalOption false rest
       | none =>
         match rest.head? with
         | none => hasFatalOption false rest
         | some v =>
           if headIsDash v then hasFatalOption false rest
           else hasFatalOption true rest)
    | ArgClass.optLong "hwflow" arg =>
      (match arg with
       | some _ => hasFatalOption false rest
       | none =>
         match rest.head? with
         | none => hasFatalOption false rest
         | some v =>
           if headIsDash v then hasFatalOption false rest
           else hasFatalOption true rest)
    | ArgClass.optLong _ _ => true
    | ArgClass.optShort 'h' _ => true
    | ArgClass.optShort 't' arg =>
      (match arg with
       | some _ => hasFatalOption false rest
       | none =>
         match rest.head? with
         | none => true
         | some _ => hasFatalOption true rest)
    | ArgClass.optShort 'b' arg =>
      (match arg with
       | some _ => hasFatalOption false rest
       | none =>
         match rest.head? with
         | none => true
         | some _ => hasFatalOption true rest)
    | ArgClass.optShort 'f' arg =>
      (match arg with
       | some _ => hasFatalOption false rest
       | none =>
         match rest.head? with
         | none => true
         | some _ => hasFatalOption true rest)
    | ArgClass.optShort _ _ => true

/-! ### platform.c: transport initialization and readiness queries -/

/-- The OS-call outcomes a single run of `platform_init` can observe.
posix_openpt and open return a descriptor or -1; grantpt and unlockpt
return 0 or -1; ptsname returns a name or NULL; tcgetattr and tcsetattr
return 0 on success, nonzero on failure. -/
structure PtyEnv where
  openpt_ret : Int
  grantpt_ret : Int
  unlockpt_ret : Int
  ptsname_ret : Option String
  open_ret : Int
  tcgetattr_ret : Int
  tcsetattr_ret : Int
deriving DecidableEq

/-- Function `platform_init` (platform.c lines 61-137), effect on the
configuration.  Empty path: allocate a pty pair; every failure
(posix_openpt, grantpt, unlockpt, ptsname) perrors and returns, closing
the master descriptor when one was obtained and leaving `fd` untouched.
On success the master descriptor is retained in `fd` and the slave name
is strncpy-ed into `path`.  Non-empty path: open the named device; a
failed open leaves `fd` = -1 (open's own return value); a failed
tcgetattr or tcsetattr closes the descriptor and resets `fd` to -1; the
termios flag computation on the success path configures raw 8N1 mode and
is not needed by any claim, so it is not modelled beyond the outcome of
the two attribute calls. -/
def platform_init (cfg : config_t) (env : PtyEnv) : config_t :=
  if cfg.path = "" then
    if env.openpt_ret = -1 then cfg
    else if env.grantpt_ret = -1 ∨ env.unlockpt_ret = -1 then cfg
    else
      match env.ptsname_ret with
      | none => cfg
      | some slave_name =>
        { cfg with path := strncpyPath slave_name, fd := env.openpt_ret }
  else
    if env.open_ret = -1 then { cfg with fd := -1 }
    else if env.tcgetattr_ret ≠ 0 then { cfg with fd := -1 }
    else if env.tcsetattr_ret ≠ 0 then { cfg with fd := -1 }
    else { cfg with fd := env.open_ret }

/-- A run of `platform_init` hits one of its failure exits: in the
empty-path branch, pty-pair creation, permission grant, unlock, or
slave-name lookup; in the named-path branch, open, attribute read, or
attribute write. -/
def platform_init_failed (cfg : config_t) (env : PtyEnv) : Bool :=
  if cfg.path = "" then
    env.openpt_ret = -1 ∨ env.grantpt_ret = -1 ∨ env.unlockpt_ret = -1 ∨
      env.ptsname_ret = none
  else
    env.open_ret = -1 ∨ env.tcgetattr_ret ≠ 0 ∨ env.tcsetattr_ret ≠ 0

/-- Model of the `struct timeval` handed to select. -/
structure timeval where
  tv_sec : Int
  tv_usec : Int
deriving DecidableEq

/-- Outcome of one `select` call: its return value and whether
FD_ISSET finds the queried descriptor in the result set. -/
structure SelectOutcome where
  ret : Int
  isset : Bool
deriving DecidableEq

/-- Function `platform_serial_has_data` (platform.c lines 144-161).  First result:
the returned readiness (C uint8_t 1/0 as Bool).  Second result: the
timeout of the select wait that was issued, or `none` when the function
returned without calling select (the fd = -1 early exit). -/
def platform_serial_has_data (cfg : config_t) (sel : SelectOutcome) :
    Bool × Option timeval :=
  if cfg.fd = -1 then (false, none)
  else if sel.ret > 0 then (sel.isset, some ⟨0, 0⟩)
  else (false, some ⟨0, 0⟩)

/-- Function `platform_serial_can_write` (platform.c lines 197-214), same shape as
`platform_serial_has_data` but polling the write set. -/
def platform_serial_can_write (cfg : config_t) (sel : SelectOutcome) :
    Bool × Option timeval :=
  if cfg.fd = -1 then (false, none)
  else if sel.ret > 0 then (sel.isset, some ⟨0, 0⟩)
  else (false, some ⟨0, 0⟩)

/-! ### main.c: control loop, teardown, startup sequencing -/

/-- The `while (!interrupted)` loop of main (main.c lines 255-276).
`intr t` is the value of the volatile `interrupted` flag at the t-th
check of the loop condition; the signal handler is the only writer and
only ever sets it.  The loop body (mctp_update and packet dispatch) is
an external collaborator that never touches the flag, so only the number
of body executions matters here.  `controlLoop intr fuel i` runs the
loop starting at check index i with `fuel` remaining checks; it returns
the index of the check at which the loop exited (equal to the total
number of body executions when started at 0), or `none` if `fuel`
checks never saw the flag set. -/
def controlLoop (intr : Nat → Bool) : Nat → Nat → Option Nat
  | 0, _ => none
  | fuel + 1, i => if intr i then some i else controlLoop intr fuel (i + 1)

/-- The teardown step after the loop (main.c lines 279-282):
`if (serial_device.fd != -1) { close(serial_device.fd); serial_device.fd = -1; }`.
Second result: how many times `close` was invoked. -/
def teardown (cfg : config_t) : config_t × Nat :=
  if cfg.fd ≠ -1 then ({ cfg with fd := -1 }, 1) else (cfg, 0)

/-- Which banner main prints after a successful parse
(main.c lines 243-250). -/
inductive Banner where
  | physical
  | simulated
deriving DecidableEq

/-- Observable outcome of main's startup phase. -/
structure StartupResult where
  exitedEarly : Bool
  exitCode : Int
  usagePrinted : Bool
  platformInitCalled : Bool
  banner : Option Banner
  cfg : config_t

/-- The startup phase of `main` (main.c lines 236-253): parse the
arguments into the global `serial_device`; on failure return
EXIT_FAILURE at once (usage was printed by `parseArgs`), with
`mctp_init` - and hence `platform_init` - never invoked; on success
print the banner chosen by `serial_device.fd > -1` and call `mctp_init`,
whose only configuration effect is `platform_init`. -/
def mainStartup (args : List String) (env : PtyEnv) : StartupResult :=
  let pr := parseArgs serial_device args
  if pr.1 then
    { exitedEarly := false, exitCode := 0, usagePrinted := false,
      platformInitCalled := true,
      banner := some (if pr.2.fd > -1 then Banner.physical else Banner.simulated),
      cfg := platform_init pr.2 env }
  else
    { exitedEarly := true, exitCode := EXIT_FAILURE, usagePrinted := true,
      platformInitCalled := false, banner := none, cfg := pr.2 }

/-! ### Shared lemmas -/

theorem applyTty_fd (cfg : config_t) (v : Option String) :
    (applyTty cfg v).fd = cfg.fd := by
  cases v <;> rfl

theorem applyBaud_fd (cfg : config_t) (v : Option String) :
    (applyBaud cfg v).fd = cfg.fd := by
  cases v <;> rfl

theorem applyHwflow_fd (cfg : config_t) (v : Option String) :
    (applyHwflow cfg v).fd = cfg.fd := by
  cases v <;> rfl

/-- No case of the option-scanning loop touches the `fd` field: the
parser mutates only `baud`, `hwflow` and `path`. -/
theorem parse_preserves_fd (sk : Bool) (cfg : config_t) (args : List String) :
    ((parseArgsLoop sk cfg args).2).fd = cfg.fd := by
  induction sk, cfg, args using parseArgsLoop.induct <;>
    simp_all [parseArgsLoop, applyTty_fd, applyBaud_fd, applyHwflow_fd]

/-- The scanning loop fails exactly when the walk meets a help request,
an unrecognized option, or a short option with its required argument
missing; in particular the outcome does not depend on the
configuration. -/
theorem parse_ok_iff_fatal (sk : Bool) (cfg : config_t) (args : List String) :
    (parseArgsLoop sk cfg args).1 = !(hasFatalOption sk args) := by
  induction sk, cfg, args using parseArgsLoop.induct <;>
    simp_all [parseArgsLoop, hasFatalOption]

theorem string_mk_eq_empty (l : List Char) (h : String.mk l = "") : l = [] :=
  congrArg String.data h

theorem strncpyPath_ne_empty (s : String) (hs : s ≠ "") : strncpyPath s ≠ "" := by
  intro hcon
  apply hs
  cases s with
  | mk l =>
    have hl : l.take (SERIAL_PATH_MAX - 1) = [] := string_mk_eq_empty _ hcon
    rcases List.take_eq_nil_iff.mp hl with h1 | h1
    · exact absurd h1 (by decide)
    · rw [h1]

/-! ### Claims -/

/-- C6 counterexample: the process-start default `baud` is the literal
115200, which is not the highest member of the enumerated rate set
(230400 is, and B230400 under the symbolic reading), refuting the
claim that the default is the highest supported rate. -/
theorem claim_C6_counterexample :
    serial_device.baud = 115200 ∧ ¬ serial_device.baud = 230400 ∧
    230400 ∈ enumeratedRates ∧ (∀ x ∈ enumeratedRates, x ≤ 230400) ∧
    ¬ serial_device.baud = B230400 := by
  decide

/-- C6 (amended): at process start, before argument parsing, the Device
Configuration holds baud 115200 (the default 115200-equivalent, a member
of the enumerated set but not its highest element), hardware flow
control disabled, an empty path, and the closed handle sentinel -1. -/
theorem claim_C6 :
    serial_device.baud = 115200 ∧ 115200 ∈ enumeratedRates ∧
    serial_device.hwflow = 0 ∧ serial_device.path = "" ∧
    serial_device.fd = -1 := by
  decide

/-- C8: boolean-token parsing yields true (without warning) on
TRUE/true/1/yes/YES and on any casing whose lowercase form is
true/1/yes; false without warning on FALSE/false/0/no/NO and on any
casing whose lowercase form is false/0/no; and false with a warning on
every other input. -/
theorem claim_C8 (s : String) :
    ((s = "TRUE" ∨ s = "true" ∨ s = "1" ∨ s = "yes" ∨ s = "YES" ∨
      toLower s = "true" ∨ toLower s = "1" ∨ toLower s = "yes") →
      parseBool (some s) = (1, false)) ∧
    ((s = "FALSE" ∨ s = "false" ∨ s = "0" ∨ s = "no" ∨ s = "NO" ∨
      toLower s = "false" ∨ toLower s = "0" ∨ toLower s = "no") →
      parseBool (some s) = (0, false)) ∧
    (¬ (toLower s = "true" ∨ toLower s = "1" ∨ toLower s = "yes" ∨
        toLower s = "false" ∨ toLower s = "0" ∨ toLower s = "no") →
      parseBool (some s) = (0, true)) := by
  refine ⟨?_, ?_, ?_⟩ <;> intro h
  · rcases h with h | h | h | h | h | h | h | h <;>
      first
      | (subst h; decide)
      | simp [parseBool, h]
  · rcases h with h | h | h | h | h | h | h | h <;>
      first
      | (subst h; decide)
      | simp [parseBool, h]
  · push_neg at h
    obtain ⟨h1, h2, h3, h4, h5, h6⟩ := h
    simp [parseBool, h1, h2, h3, h4, h5, h6]

/-- C8 witness at concrete inputs: "YES" parses to true, "No" parses to
false, and "maybe" parses to false with a warning. -/
theorem claim_C8_witness :
    parseBool (some "YES") = (1, false) ∧
    parseBool (some "No") = (0, false) ∧
    parseBool (some "maybe") = (0, true) :=
  ⟨(claim_C8 "YES").1 (by decide),
   (claim_C8 "No").2.1 (by decide),
   (claim_C8 "maybe").2.2 (by decide)⟩

/-- C10: parsing is not atomic on failure: on the argument list
"--baud 9600 --help" the parser signals failure, yet the configuration
already differs from the process-start defaults because `baud` was
mutated to B9600 before the help token was reached. -/
theorem claim_C10 :
    (parseArgs serial_device ["--baud", "9600", "--help"]).1 = false ∧
    (parseArgs serial_device ["--baud", "9600", "--help"]).2 ≠ serial_device ∧
    ((parseArgs serial_device ["--baud", "9600", "--help"]).2).baud = B9600 := by
  decide

/-- C7: the baud-token mapping is injective on the seven recognized
tokens and sends each onto its corresponding symbolic rate; every
unrecognized token maps to the default B115200 with a warning printed,
and parsing an argument list that supplies such a token to --baud still
succeeds. -/
theorem claim_C7 :
    (∀ t1 ∈ recognizedBaudTokens, ∀ t2 ∈ recognizedBaudTokens,
      (baudRateFromString (some t1)).1 = (baudRateFromString (some t2)).1 →
        t1 = t2) ∧
    (baudRateFromString (some "4800") = (B4800, false) ∧
     baudRateFromString (some "9600") = (B9600, false) ∧
     baudRateFromString (some "19200") = (B19200, false) ∧
     baudRateFromString (some "38400") = (B38400, false) ∧
     baudRateFromString (some "57600") = (B57600, false) ∧
     baudRateFromString (some "115200") = (B115200, false) ∧
     baudRateFromString (some "230400") = (B230400, false)) ∧
    (∀ t, t ∉ recognizedBaudTokens → ¬ headIsDash t = true →
      baudRateFromString (some t) = (B115200, true) ∧
      parseArgs serial_device ["--baud", t] =
        (true, { serial_device with baud := B115200 })) := by
  refine ⟨by decide, by decide, ?_⟩
  intro t ht hd
  simp [recognizedBaudTokens] at ht
  obtain ⟨h1, h2, h3, h4, h5, h6, h7⟩ := ht
  have g1 : ¬ ("4800" = t) := fun he => h1 he.symm
  have g2 : ¬ ("9600" = t) := fun he => h2 he.symm
  have g3 : ¬ ("19200" = t) := fun he => h3 he.symm
  have g4 : ¬ ("38400" = t) := fun he => h4 he.symm
  have g5 : ¬ ("57600" = t) := fun he => h5 he.symm
  have g6 : ¬ ("115200" = t) := fun he => h6 he.symm
  have g7 : ¬ ("230400" = t) := fun he => h7 he.symm
  have hb : baudRateFromString (some t) = (B115200, true) := by
    simp [baudRateFromString, baudMap, List.find?, g1, g2, g3, g4, g5, g6, g7]
  refine ⟨hb, ?_⟩
  rw [parseArgs, parseArgsLoop.eq_3]
  simp only [show classifyArg "--baud" = ArgClass.optLong "baud" none from rfl]
  simp [hd, parseArgsLoop, applyBaud, hb]

/-- C7 witness: the unrecognized-token branch at the concrete token
"bogus". -/
theorem claim_C7_witness :
    baudRateFromString (some "bogus") = (B115200, true) ∧
    parseArgs serial_device ["--baud", "bogus"] =
      (true, { serial_device with baud := B115200 }) :=
  claim_C7.2.2 "bogus" (by decide) (by decide)

/-- C5: an argument list on which the scan meets an unrecognized option,
missing option-argument syntax, or an explicit help request makes the
parser print usage and signal failure; main then exits with the nonzero
EXIT_FAILURE status, platform initialization is never invoked, and the
handle still holds the closed sentinel -1. -/
theorem claim_C5 (args : List String) (env : PtyEnv)
    (h : hasFatalOption false args = true) :
    (parseArgs serial_device args).1 = false ∧
    (mainStartup args env).usagePrinted = true ∧
    (mainStartup args env).exitedEarly = true ∧
    (mainStartup args env).exitCode = EXIT_FAILURE ∧
    ¬ EXIT_FAILURE = 0 ∧
    (mainStartup args env).platformInitCalled = false ∧
    ((mainStartup args env).cfg).fd = -1 := by
  have hp : (parseArgs serial_device args).1 = false := by
    rw [parseArgs, parse_ok_iff_fatal, h]
    rfl
  have hfd : ((parseArgs serial_device args).2).fd = -1 :=
    parse_preserves_fd false serial_device args
  refine ⟨hp, ?_⟩
  simp [mainStartup, hp, hfd, EXIT_FAILURE]

/-- C5 witness: the concrete invocation "--help". -/
theorem claim_C5_witness :
    (parseArgs serial_device ["--help"]).1 = false ∧
    (mainStartup ["--help"] ⟨-1, 0, 0, none, -1, 0, 0⟩).usagePrinted = true ∧
    (mainStartup ["--help"] ⟨-1, 0, 0, none, -1, 0, 0⟩).exitedEarly = true ∧
    (mainStartup ["--help"] ⟨-1, 0, 0, none, -1, 0, 0⟩).exitCode = EXIT_FAILURE ∧
    ¬ EXIT_FAILURE = 0 ∧
    (mainStartup ["--help"] ⟨-1, 0, 0, none, -1, 0, 0⟩).platformInitCalled = false ∧
    ((mainStartup ["--help"] ⟨-1, 0, 0, none, -1, 0, 0⟩).cfg).fd = -1 :=
  claim_C5 ["--help"] ⟨-1, 0, 0, none, -1, 0, 0⟩ (by decide)

/-- C9: on every argument list on which parsing succeeds - including
lists that supply a device path via --tty - the handle still equals the
closed sentinel -1 where main reports the device in use, so the
simulated-device banner is printed on every successful start and the
physical-device banner is unreachable. -/
theorem claim_C9 (args : List String) (env : PtyEnv)
    (h : (parseArgs serial_device args).1 = true) :
    ((parseArgs serial_device args).2).fd = -1 ∧
    (mainStartup args env).banner = some Banner.simulated := by
  have hfd : ((parseArgs serial_device args).2).fd = -1 :=
    parse_preserves_fd false serial_device args
  refine ⟨hfd, ?_⟩
  simp [mainStartup, h, hfd]

/-- C9 witness: a successful parse that supplies a physical path via
--tty still reaches the simulated-device banner. -/
theorem claim_C9_witness :
    ((parseArgs serial_device ["--tty", "/dev/ttyS0"]).2).fd = -1 ∧
    (mainStartup ["--tty", "/dev/ttyS0"] ⟨-1, 0, 0, none, -1, 0, 0⟩).banner =
      some Banner.simulated :=
  claim_C9 ["--tty", "/dev/ttyS0"] ⟨-1, 0, 0, none, -1, 0, 0⟩ (by decide)

/-- If the interrupt flag is set at check n, the loop exits at some
check index k ≤ n (having executed k loop bodies when started at 0). -/
theorem controlLoop_exits (intr : Nat → Bool) :
    ∀ (fuel i n : Nat), i ≤ n → n < i + fuel → intr n = true →
      ∃ k, i ≤ k ∧ k ≤ n ∧ controlLoop intr fuel i = some k
  | 0, i, n, hin, hfb, _ => absurd hfb (by omega)
  | fuel + 1, i, n, hin, hfb, hset => by
    by_cases hi : intr i = true
    · exact ⟨i, Nat.le_refl i, hin, by simp [controlLoop, hi]⟩
    · have hne : ¬ i = n := fun he => hi (he ▸ hset)
      obtain ⟨k, hk1, hk2, hk3⟩ :=
        controlLoop_exits intr fuel (i + 1) n (by omega) (by omega) hset
      exact ⟨k, by omega, hk2, by simp [controlLoop, hi, hk3]⟩

/-- C1: once the interrupt flag is set (at flag check n, with
sufficient fuel to reach it), the control loop terminates by check n -
at most one further iteration after the flag was raised; teardown on an
open handle then calls close exactly once and resets the handle to the
closed sentinel -1; and teardown of an already-closed handle performs
zero close calls and changes nothing. -/
theorem claim_C1 (intr : Nat → Bool) (n fuel : Nat) (cfg : config_t)
    (hset : intr n = true) (hfuel : n < fuel) :
    (∃ k, k ≤ n ∧ controlLoop intr fuel 0 = some k) ∧
    (cfg.fd ≠ -1 → teardown cfg = ({ cfg with fd := -1 }, 1)) ∧
    (teardown cfg).1.fd = -1 ∧
    teardown (teardown cfg).1 = ((teardown cfg).1, 0) := by
  obtain ⟨k, _, hk2, hk3⟩ :=
    controlLoop_exits intr fuel 0 n (Nat.zero_le n) (by omega) hset
  refine ⟨⟨k, hk2, hk3⟩, fun h => by simp [teardown, h], ?_, ?_⟩ <;>
    by_cases h : cfg.fd = -1 <;> simp [teardown, h]

/-- C1 witness: flag set from check 2 on, an open descriptor 7. -/
theorem claim_C1_witness :
    (∃ k, k ≤ 2 ∧ controlLoop (fun i => decide (2 ≤ i)) 5 0 = some k) ∧
    ((⟨115200, 0, "", 7⟩ : config_t).fd ≠ -1 →
      teardown ⟨115200, 0, "", 7⟩ =
        ({ (⟨115200, 0, "", 7⟩ : config_t) with fd := -1 }, 1)) ∧
    (teardown ⟨115200, 0, "", 7⟩).1.fd = -1 ∧
    teardown (teardown ⟨115200, 0, "", 7⟩).1 =
      ((teardown ⟨115200, 0, "", 7⟩).1, 0) :=
  claim_C1 (fun i => decide (2 ≤ i)) 2 5 ⟨115200, 0, "", 7⟩ (by decide) (by decide)

/-- C4: with the handle closed (fd = -1) both readiness queries return
false having issued no select wait at all; with the handle open, the
select wait they issue carries the zero timeout. -/
theorem claim_C4 (cfg : config_t) (selR selW : SelectOutcome) :
    (cfg.fd = -1 →
      platform_serial_has_data cfg selR = (false, none) ∧
      platform_serial_can_write cfg selW = (false, none)) ∧
    (cfg.fd ≠ -1 →
      (platform_serial_has_data cfg selR).2 = some ⟨0, 0⟩ ∧
      (platform_serial_can_write cfg selW).2 = some ⟨0, 0⟩) := by
  refine ⟨fun h => ?_, fun h => ?_⟩
  · rw [platform_serial_has_data, platform_serial_can_write, if_pos h, if_pos h]
    exact ⟨rfl, rfl⟩
  · rw [platform_serial_has_data, platform_serial_can_write, if_neg h, if_neg h]
    constructor <;> split <;> rfl

/-- C4 witness: a closed configuration returns (false, no wait) even
when select would report readiness; an open one issues the zero-timeout
wait. -/
theorem claim_C4_witness :
    platform_serial_has_data ⟨115200, 0, "", -1⟩ ⟨1, true⟩ = (false, none) ∧
    (platform_serial_has_data ⟨115200, 0, "/dev/pts/3", 5⟩ ⟨1, true⟩).2 =
      some ⟨0, 0⟩ :=
  ⟨((claim_C4 ⟨115200, 0, "", -1⟩ ⟨1, true⟩ ⟨1, true⟩).1 rfl).1,
   ((claim_C4 ⟨115200, 0, "/dev/pts/3", 5⟩ ⟨1, true⟩ ⟨1, true⟩).2 (by decide)).1⟩

/-- C2: with an empty path and every pty-allocation step succeeding,
initialization retains the master descriptor returned by posix_openpt
(so the handle is no longer the closed sentinel) and overwrites the
path with the slave name reported by ptsname (truncated to the strncpy
bound), which is non-empty. -/
theorem claim_C2 (cfg : config_t) (env : PtyEnv) (s : String)
    (hpath : cfg.path = "") (hopen : 0 ≤ env.openpt_ret)
    (hgrant : env.grantpt_ret ≠ -1) (hunlock : env.unlockpt_ret ≠ -1)
    (hname : env.ptsname_ret = some s) (hs : s ≠ "") :
    (platform_init cfg env).fd = env.openpt_ret ∧
    (platform_init cfg env).fd ≠ -1 ∧
    (platform_init cfg env).path = strncpyPath s ∧
    (platform_init cfg env).path ≠ "" := by
  have hne : ¬ env.openpt_ret = -1 := by omega
  have hg : ¬ (env.grantpt_ret = -1 ∨ env.unlockpt_ret = -1) := by
    intro hor
    rcases hor with h | h
    · exact hgrant h
    · exact hunlock h
  have hini : platform_init cfg env =
      { cfg with path := strncpyPath s, fd := env.openpt_ret } := by
    rw [platform_init, if_pos hpath, if_neg hne, if_neg hg, hname]
  rw [hini]
  exact ⟨rfl, hne, rfl, strncpyPath_ne_empty s hs⟩

/-- C2 witness: master descriptor 5, slave name "/dev/pts/3". -/
theorem claim_C2_witness :
    (platform_init serial_device ⟨5, 0, 0, some "/dev/pts/3", -1, 0, 0⟩).fd = 5 ∧
    (platform_init serial_device ⟨5, 0, 0, some "/dev/pts/3", -1, 0, 0⟩).fd ≠ -1 ∧
    (platform_init serial_device ⟨5, 0, 0, some "/dev/pts/3", -1, 0, 0⟩).path =
      strncpyPath "/dev/pts/3" ∧
    (platform_init serial_device ⟨5, 0, 0, some "/dev/pts/3", -1, 0, 0⟩).path ≠ "" :=
  claim_C2 serial_device ⟨5, 0, 0, some "/dev/pts/3", -1, 0, 0⟩ "/dev/pts/3"
    rfl (by decide) (by decide) (by decide) rfl (by decide)

/-- C3: entered with the handle closed (as in the actual program, where
platform_init runs once before any descriptor is assigned), a failure at
any step - pty-pair creation, permission grant, unlock, slave-name
lookup, open, attribute read, or attribute write - leaves the handle
equal to the closed sentinel -1 when initialization returns (and the
embedding of platform_init is a total function: every failure path
returns normally). -/
theorem claim_C3 (cfg : config_t) (env : PtyEnv)
    (hfd : cfg.fd = -1) (hfail : platform_init_failed cfg env = true) :
    (platform_init cfg env).fd = -1 := by
  by_cases hp : cfg.path = ""
  · rw [platform_init_failed, if_pos hp, decide_eq_true_eq] at hfail
    rw [platform_init, if_pos hp]
    rcases hfail with h | h | h | h
    · rw [if_pos h]; exact hfd
    · by_cases ho : env.openpt_ret = -1
      · rw [if_pos ho]; exact hfd
      · rw [if_neg ho, if_pos (Or.inl h)]; exact hfd
    · by_cases ho : env.openpt_ret = -1
      · rw [if_pos ho]; exact hfd
      · rw [if_neg ho, if_pos (Or.inr h)]; exact hfd
    · by_cases ho : env.openpt_ret = -1
      · rw [if_pos ho]; exact hfd
      · by_cases hg : env.grantpt_ret = -1 ∨ env.unlockpt_ret = -1
        · rw [if_neg ho, if_pos hg]; exact hfd
        · rw [if_neg ho, if_neg hg, h]; exact hfd
  · rw [platform_init_failed, if_neg hp, decide_eq_true_eq] at hfail
    rw [platform_init, if_neg hp]
    rcases hfail with h | h | h
    · rw [if_pos h]
    · by_cases ho : env.open_ret = -1
      · rw [if_pos ho]
      · rw [if_neg ho, if_pos h]
    · by_cases ho : env.open_ret = -1
      · rw [if_pos ho]
      · by_cases hg : env.tcgetattr_ret ≠ 0
        · rw [if_neg ho, if_pos hg]
        · rw [if_neg ho, if_neg hg, if_pos h]

/-- C3 witness: empty path with grantpt failing, and a named path with
tcsetattr failing. -/
theorem claim_C3_witness :
    (platform_init ⟨115200, 0, "", -1⟩ ⟨5, -1, 0, some "/dev/pts/3", -1, 0, 0⟩).fd
      = -1 ∧
    (platform_init ⟨115200, 0, "/dev/ttyS0", -1⟩ ⟨-1, 0, 0, none, 6, 0, 1⟩).fd
      = -1 :=
  ⟨claim_C3 ⟨115200, 0, "", -1⟩ ⟨5, -1, 0, some "/dev/pts/3", -1, 0, 0⟩
      rfl (by decide),
   claim_C3 ⟨115200, 0, "/dev/ttyS0", -1⟩ ⟨-1, 0, 0, none, 6, 0, 1⟩
      rfl (by decide)⟩

end IotFoundry
